import Mathlib

/-!
Shallow embedding of the UTSP client library (`utspclient/datastructures.py` and
`utspclient/client.py`) together with proofs about the claims of its design
specification.

Conventions of the embedding:
* Python `bytes` values are `List Nat` with every entry below 256.
* Python dicts are insertion-ordered association lists `List (key × value)`.
* Python exceptions are modelled with `Except String`; an `AssertionError`
  or raised `Exception` becomes `Except.error msg` with the source's message.
* External libraries with a fixed documented behaviour are embedded faithfully
  (`hashlib.sha256`, `base64`) or passed as parameters with their documented
  round-trip property as a hypothesis (`zlib`, which is DEFLATE and is out of
  scope to model bit-exactly).
-/

/-- States of a request, mirroring `CalculationStatus` with its wire values
UNKNOWN=0, INCALCULATION=1, INDATABASE=2, CALCULATIONSTARTED=3, CALCULATIONFAILED=4. -/
inductive CalculationStatus where
  | UNKNOWN
  | INCALCULATION
  | INDATABASE
  | CALCULATIONSTARTED
  | CALCULATIONFAILED
deriving DecidableEq, Repr

/-- Mirrors `ResultFileRequirement` (REQUIRED=0, OPTIONAL=1). -/
inductive ResultFileRequirement where
  | REQUIRED
  | OPTIONAL
deriving DecidableEq, Repr

/-- Mirrors the dataclass `TimeSeriesRequest`.  The two dict fields are
insertion-ordered association lists, as Python dicts are. -/
structure TimeSeriesRequest where
  simulation_config : String
  providername : String
  guid : String := ""
  required_result_files : List (String × Option ResultFileRequirement) := []
  input_files : List (String × String) := []
deriving DecidableEq, Repr

/-! ### SHA-256 (model of `hashlib.sha256`, FIPS 180-4) -/

/-- Right rotation of a 32-bit word. -/
def shaRotr (n x : Nat) : Nat := ((x >>> n) ||| (x <<< (32 - n))) % 4294967296

/-- Choice function of the SHA-256 compression rounds. -/
def shaCh (x y z : Nat) : Nat := (x &&& y) ^^^ ((x ^^^ 4294967295) &&& z)

/-- Majority function of the SHA-256 compression rounds. -/
def shaMaj (x y z : Nat) : Nat := (x &&& y) ^^^ (x &&& z) ^^^ (y &&& z)

def shaBigS0 (x : Nat) : Nat := shaRotr 2 x ^^^ shaRotr 13 x ^^^ shaRotr 22 x

def shaBigS1 (x : Nat) : Nat := shaRotr 6 x ^^^ shaRotr 11 x ^^^ shaRotr 25 x

def shaSmallS0 (x : Nat) : Nat := shaRotr 7 x ^^^ shaRotr 18 x ^^^ (x >>> 3)

def shaSmallS1 (x : Nat) : Nat := shaRotr 17 x ^^^ shaRotr 19 x ^^^ (x >>> 10)

/-- The 64 SHA-256 round constants of FIPS 180-4 (in decimal). -/
def shaK : List Nat :=
  [1116352408, 1899447441, 3049323471, 3921009573, 961987163, 1508970993,
   2453635748, 2870763221, 3624381080, 310598401, 607225278, 1426881987,
   1925078388, 2162078206, 2614888103, 3248222580, 3835390401, 4022224774,
   264347078, 604807628, 770255983, 1249150122, 1555081692, 1996064986,
   2554220882, 2821834349, 2952996808, 3210313671, 3336571891, 3584528711,
   113926993, 338241895, 666307205, 773529912, 1294757372, 1396182291,
   1695183700, 1986661051, 2177026350, 2456956037, 2730485921, 2820302411,
   3259730800, 3345764771, 3516065817, 3600352804, 4094571909, 275423344,
   430227734, 506948616, 659060556, 883997877, 958139571, 1322822218,
   1537002063, 1747873779, 1955562222, 2024104815, 2227730452, 2361852424,
   2428436474, 2756734187, 3204031479, 3329325298]

/-- The eight 32-bit words of a SHA-256 state. -/
structure Hash8 where
  a : Nat
  b : Nat
  c : Nat
  d : Nat
  e : Nat
  f : Nat
  g : Nat
  h : Nat
deriving DecidableEq, Repr

/-- Initial SHA-256 state of FIPS 180-4 (in decimal). -/
def shaInitH : Hash8 :=
  { a := 1779033703, b := 3144134277, c := 1013904242, d := 2773480762,
    e := 1359893119, f := 2600822924, g := 528734635, h := 1541459225 }

/-- Big-endian byte rendering of `n` on `k` bytes. -/
def beBytes : Nat → Nat → List Nat
  | 0, _ => []
  | k + 1, n => beBytes k (n / 256) ++ [n % 256]

/-- Message padding: append 0x80, zeros, and the 64-bit big-endian bit length. -/
def shaPad (msg : List Nat) : List Nat :=
  msg ++ 128 :: List.replicate ((64 + 56 - (msg.length + 1) % 64) % 64) 0
      ++ beBytes 8 (msg.length * 8)

/-- Splits a byte list into 64-byte blocks. -/
def toBlocks (l : List Nat) : List (List Nat) :=
  if h : l = [] then [] else l.take 64 :: toBlocks (l.drop 64)
termination_by l.length
decreasing_by
  simp only [List.length_drop]
  have hl : 0 < l.length := List.length_pos.mpr h
  omega

/-- The first 16 words of the message schedule, big-endian from the block bytes. -/
def shaInitW (block : List Nat) : List Nat :=
  (List.range 16).map fun i =>
    block.getD (4 * i) 0 * 16777216 + block.getD (4 * i + 1) 0 * 65536 +
      block.getD (4 * i + 2) 0 * 256 + block.getD (4 * i + 3) 0

/-- The full 64-word message schedule of one block. -/
def shaSchedule (block : List Nat) : List Nat :=
  (List.range 48).foldl
    (fun ws _ =>
      ws ++ [(shaSmallS1 (ws.getD (ws.length - 2) 0) + ws.getD (ws.length - 7) 0 +
          shaSmallS0 (ws.getD (ws.length - 15) 0) + ws.getD (ws.length - 16) 0) % 4294967296])
    (shaInitW block)

/-- One SHA-256 compression round, fed one (round constant, schedule word) pair. -/
def shaStep (s : Hash8) (kw : Nat × Nat) : Hash8 :=
  let t1 := (s.h + shaBigS1 s.e + shaCh s.e s.f s.g + kw.1 + kw.2) % 4294967296
  let t2 := (shaBigS0 s.a + shaMaj s.a s.b s.c) % 4294967296
  { a := (t1 + t2) % 4294967296, b := s.a, c := s.b, d := s.c,
    e := (s.d + t1) % 4294967296, f := s.e, g := s.f, h := s.g }

/-- Compression of one 64-byte block into the running state. -/
def compressBlock (s : Hash8) (block : List Nat) : Hash8 :=
  let t := (shaK.zip (shaSchedule block)).foldl shaStep s
  { a := (s.a + t.a) % 4294967296, b := (s.b + t.b) % 4294967296,
    c := (s.c + t.c) % 4294967296, d := (s.d + t.d) % 4294967296,
    e := (s.e + t.e) % 4294967296, f := (s.f + t.f) % 4294967296,
    g := (s.g + t.g) % 4294967296, h := (s.h + t.h) % 4294967296 }

/-- SHA-256 of a byte string, as the final eight-word state. -/
def sha256 (msg : List Nat) : Hash8 :=
  (toBlocks (shaPad msg)).foldl compressBlock shaInitH

/-- The digest as a single natural number (the concatenation of the eight words). -/
def digestNat (s : Hash8) : Nat :=
  [s.a, s.b, s.c, s.d, s.e, s.f, s.g, s.h].foldl
    (fun acc w => acc * 4294967296 + w % 4294967296) 0

/-- Lower-case hex digit. -/
def hexChar (n : Nat) : Char :=
  if n < 10 then Char.ofNat (48 + n) else Char.ofNat (87 + n)

/-- The 64-character lower-case hex rendering of a 256-bit digest,
modelling `hexdigest()`. -/
def hexDigest (n : Nat) : String :=
  String.mk ((List.range 64).map fun i => hexChar (n / 16 ^ (63 - i) % 16))

/-! ### JSON serialization (model of `dataclasses_json`'s `to_json`) -/

/-- Four-hex-digit rendering used by JSON `\uXXXX` escapes. -/
def hex4 (n : Nat) : List Char :=
  [hexChar (n / 4096 % 16), hexChar (n / 256 % 16), hexChar (n / 16 % 16), hexChar (n % 16)]

/-- Escaping of one character as done by `json.dumps` with its default
`ensure_ascii=True`. -/
def jsonEscapeChar (c : Char) : List Char :=
  if c = '"' then ['\\', '"']
  else if c = '\\' then ['\\', '\\']
  else if c = '\n' then ['\\', 'n']
  else if c = '\t' then ['\\', 't']
  else if c = '\r' then ['\\', 'r']
  else if c.toNat = 8 then ['\\', 'b']
  else if c.toNat = 12 then ['\\', 'f']
  else if c.toNat < 32 then '\\' :: 'u' :: hex4 c.toNat
  else if c.toNat < 127 then [c]
  else if c.toNat < 65536 then '\\' :: 'u' :: hex4 c.toNat
  else
    '\\' :: 'u' :: hex4 (55296 + (c.toNat - 65536) / 1024) ++
      '\\' :: 'u' :: hex4 (56320 + (c.toNat - 65536) % 1024)

/-- A JSON string literal with quotes and escapes. -/
def jsonStr (s : String) : String :=
  String.mk ('"' :: (s.data.map jsonEscapeChar).flatten ++ ['"'])

/-- A JSON object from an association list, rendered like `json.dumps` renders
a dict (insertion order, separators `", "` and `": "`). -/
def jsonDict (f : β → String) (l : List (String × β)) : String :=
  "\x7b" ++ String.intercalate ", " (l.map fun kv => jsonStr kv.1 ++ ": " ++ f kv.2) ++ "\x7d"

/-- Rendering of an optional `ResultFileRequirement` value; `dataclasses_json`
serializes enum members by value. -/
def reqLevelJson : Option ResultFileRequirement → String
  | none => "null"
  | some ResultFileRequirement.REQUIRED => "0"
  | some ResultFileRequirement.OPTIONAL => "1"

/-- Mirrors `TimeSeriesRequest.to_json()` (from `dataclass_json`): the JSON
object with the five fields in declaration order. -/
def TimeSeriesRequest.to_json (r : TimeSeriesRequest) : String :=
  "\x7b\"simulation_config\": " ++ jsonStr r.simulation_config ++
    ", \"providername\": " ++ jsonStr r.providername ++
    ", \"guid\": " ++ jsonStr r.guid ++
    ", \"required_result_files\": " ++ jsonDict reqLevelJson r.required_result_files ++
    ", \"input_files\": " ++ jsonDict jsonStr r.input_files ++ "\x7d"

/-- UTF-8 encoding of one character, modelling `str.encode("utf-8")`. -/
def utf8Char (c : Char) : List Nat :=
  let n := c.toNat
  if n < 128 then [n]
  else if n < 2048 then [192 + n / 64, 128 + n % 64]
  else if n < 65536 then [224 + n / 4096, 128 + n / 64 % 64, 128 + n % 64]
  else [240 + n / 262144, 128 + n / 4096 % 64, 128 + n / 64 % 64, 128 + n % 64]

/-- UTF-8 encoding of a string as a byte list. -/
def utf8Encode (s : String) : List Nat :=
  (s.data.map utf8Char).flatten

/-- Mirrors `TimeSeriesRequest.get_hash`: the SHA-256 hexdigest of the UTF-8
encoded JSON representation. -/
def TimeSeriesRequest.get_hash (r : TimeSeriesRequest) : String :=
  hexDigest (digestNat (sha256 (utf8Encode r.to_json)))

/-! ### Claim C3: hashing -/

/-- Helper bound: folding 32-bit words into an accumulator stays below
`(acc + 1) * 2^(32 * length)`. -/
theorem foldl_word_lt (ws : List Nat) (acc : Nat) :
    ws.foldl (fun a w => a * 4294967296 + w % 4294967296) acc <
      (acc + 1) * 4294967296 ^ ws.length := by
  induction ws generalizing acc with
  | nil => simpa using Nat.lt_succ_self acc
  | cons w ws ih =>
    have hmod : w % 4294967296 < 4294967296 := Nat.mod_lt _ (by norm_num)
    calc
      (w :: ws).foldl (fun a x => a * 4294967296 + x % 4294967296) acc
          = ws.foldl (fun a x => a * 4294967296 + x % 4294967296)
              (acc * 4294967296 + w % 4294967296) := rfl
      _ < (acc * 4294967296 + w % 4294967296 + 1) * 4294967296 ^ ws.length := ih _
      _ ≤ ((acc + 1) * 4294967296) * 4294967296 ^ ws.length := by
            apply Nat.mul_le_mul_right
            omega
      _ = (acc + 1) * 4294967296 ^ (w :: ws).length := by
            rw [List.length_cons]
            ring

/-- Every digest value is below `2^256`. -/
theorem digestNat_lt (s : Hash8) : digestNat s < 4294967296 ^ 8 := by
  have h := foldl_word_lt [s.a, s.b, s.c, s.d, s.e, s.f, s.g, s.h] 0
  have h2 : (0 + 1) * 4294967296 ^ ([s.a, s.b, s.c, s.d, s.e, s.f, s.g, s.h] : List Nat).length
      = 4294967296 ^ 8 := by norm_num
  rw [h2] at h
  exact h

/-- A family of requests that differ pairwise exactly in `simulation_config`. -/
def mkReq (n : Nat) : TimeSeriesRequest :=
  { simulation_config := String.mk (List.replicate n 'x'),
    providername := "provider", guid := "",
    required_result_files := [], input_files := [] }

/-- C3 counterexample: it is NOT true that any two requests differing in a
single field have different hashes.  `get_hash` maps the infinitely many
requests `mkReq n` (which pairwise agree on four fields and differ only in
`simulation_config`) into the finite set of 256-bit digests, so by pigeonhole
two of them collide. -/
theorem claim_c3_counterexample :
    ¬ (∀ R1 R2 : TimeSeriesRequest,
        R1.providername = R2.providername → R1.guid = R2.guid →
        R1.required_result_files = R2.required_result_files →
        R1.input_files = R2.input_files →
        R1.simulation_config ≠ R2.simulation_config →
        R1.get_hash ≠ R2.get_hash) := by
  intro hclaim
  obtain ⟨n, m, hnm, heq⟩ :=
    Finite.exists_ne_map_eq_of_infinite
      (fun n : ℕ =>
        (⟨digestNat (sha256 (utf8Encode (mkReq n).to_json)),
          digestNat_lt _⟩ : Fin (4294967296 ^ 8)))
  have hdig : digestNat (sha256 (utf8Encode (mkReq n).to_json)) =
      digestNat (sha256 (utf8Encode (mkReq m).to_json)) :=
    congrArg Fin.val heq
  have hcfg : (mkReq n).simulation_config ≠ (mkReq m).simulation_config := by
    intro hs
    apply hnm
    have hlen := congrArg (fun s : String => s.data.length) hs
    simpa [mkReq] using hlen
  have hhash : (mkReq n).get_hash = (mkReq m).get_hash :=
    congrArg hexDigest hdig
  exact hclaim (mkReq n) (mkReq m) rfl rfl rfl rfl hcfg hhash

/-- C3 (amended): the hash is a deterministic function of the five fields —
two requests with identical field values always hash identically.  (The
original second half, that any single-field change changes the hash, is
refuted by `claim_c3_counterexample`; single-field changes change the hashed
JSON serialization, but SHA-256 digests can collide.) -/
theorem claim_c3_amended (R1 R2 : TimeSeriesRequest)
    (h1 : R1.simulation_config = R2.simulation_config)
    (h2 : R1.providername = R2.providername)
    (h3 : R1.guid = R2.guid)
    (h4 : R1.required_result_files = R2.required_result_files)
    (h5 : R1.input_files = R2.input_files) :
    R1.get_hash = R2.get_hash := by
  cases R1
  cases R2
  simp only at h1 h2 h3 h4 h5
  subst h1 h2 h3 h4 h5
  rfl

/-- C3 witness: two structurally identical concrete requests hash identically. -/
theorem claim_c3_witness :
    (TimeSeriesRequest.mk "cfg" "hisim" "id1" [("f.csv", some ResultFileRequirement.REQUIRED)]
        [("in.json", "YQ==")]).get_hash =
      (TimeSeriesRequest.mk "cfg" "hisim" "id1" [("f.csv", some ResultFileRequirement.REQUIRED)]
        [("in.json", "YQ==")]).get_hash :=
  claim_c3_amended _ _ rfl rfl rfl rfl rfl

/-! ### Base64 (model of `base64.b64encode` / `base64.b64decode`) -/

/-- Character of the standard base64 alphabet for a sextet. -/
def b64Char (n : Nat) : Char :=
  if n < 26 then Char.ofNat (65 + n)
  else if n < 52 then Char.ofNat (97 + (n - 26))
  else if n < 62 then Char.ofNat (48 + (n - 52))
  else if n = 62 then '+'
  else '/'

/-- Sextet value of a base64 alphabet character. -/
def b64CharVal (c : Char) : Nat :=
  if 65 ≤ c.toNat ∧ c.toNat ≤ 90 then c.toNat - 65
  else if 97 ≤ c.toNat ∧ c.toNat ≤ 122 then c.toNat - 97 + 26
  else if 48 ≤ c.toNat ∧ c.toNat ≤ 57 then c.toNat - 48 + 52
  else if c = '+' then 62
  else if c = '/' then 63
  else 0

/-- Base64 encoding of a byte list, three bytes to four characters with
`=` padding. -/
def b64encodeList : List Nat → List Char
  | [] => []
  | [a] => [b64Char (a / 4), b64Char (a % 4 * 16), '=', '=']
  | [a, b] => [b64Char (a / 4), b64Char (a % 4 * 16 + b / 16), b64Char (b % 16 * 4), '=']
  | a :: b :: c :: t =>
    b64Char (a / 4) :: b64Char (a % 4 * 16 + b / 16) :: b64Char (b % 16 * 4 + c / 64) ::
      b64Char (c % 64) :: b64encodeList t

/-- Base64 decoding of a character list. -/
def b64decodeList : List Char → List Nat
  | c1 :: c2 :: c3 :: c4 :: t =>
    if c3 = '=' then [b64CharVal c1 * 4 + b64CharVal c2 / 16]
    else if c4 = '=' then
      [b64CharVal c1 * 4 + b64CharVal c2 / 16, b64CharVal c2 % 16 * 16 + b64CharVal c3 / 4]
    else
      (b64CharVal c1 * 4 + b64CharVal c2 / 16) ::
        (b64CharVal c2 % 16 * 16 + b64CharVal c3 / 4) ::
        (b64CharVal c3 % 4 * 64 + b64CharVal c4) :: b64decodeList t
  | _ => []

/-- Mirrors `base64.b64encode(b).decode()`: bytes in, string out. -/
def b64encode (l : List Nat) : String := String.mk (b64encodeList l)

/-- Mirrors `base64.b64decode(s.encode())`: string in, bytes out. -/
def b64decode (s : String) : List Nat := b64decodeList s.data

theorem b64CharVal_b64Char : ∀ n < 64, b64CharVal (b64Char n) = n := by decide

theorem b64Char_ne_pad : ∀ n < 64, b64Char n ≠ '=' := by decide

/-- Base64 round-trip on byte lists. -/
theorem b64_roundtrip : ∀ l : List Nat, (∀ x ∈ l, x < 256) →
    b64decodeList (b64encodeList l) = l
  | [], _ => rfl
  | [a], h => by
    have ha : a < 256 := h a (by simp)
    have h1 := b64CharVal_b64Char (a / 4) (by omega)
    have h2 := b64CharVal_b64Char (a % 4 * 16) (by omega)
    simp [b64encodeList, b64decodeList, h1, h2]
    omega
  | [a, b], h => by
    have ha : a < 256 := h a (by simp)
    have hb : b < 256 := h b (by simp)
    have h1 := b64CharVal_b64Char (a / 4) (by omega)
    have h2 := b64CharVal_b64Char (a % 4 * 16 + b / 16) (by omega)
    have h3 := b64CharVal_b64Char (b % 16 * 4) (by omega)
    have hne3 := b64Char_ne_pad (b % 16 * 4) (by omega)
    simp [b64encodeList, b64decodeList, hne3, h1, h2, h3]
    omega
  | a :: b :: c :: t, h => by
    have ha : a < 256 := h a (by simp)
    have hb : b < 256 := h b (by simp)
    have hc : c < 256 := h c (by simp)
    have ht : ∀ x ∈ t, x < 256 := fun x hx =>
      h x (List.mem_cons_of_mem _ (List.mem_cons_of_mem _ (List.mem_cons_of_mem _ hx)))
    have h1 := b64CharVal_b64Char (a / 4) (by omega)
    have h2 := b64CharVal_b64Char (a % 4 * 16 + b / 16) (by omega)
    have h3 := b64CharVal_b64Char (b % 16 * 4 + c / 64) (by omega)
    have h4 := b64CharVal_b64Char (c % 64) (by omega)
    have hne3 := b64Char_ne_pad (b % 16 * 4 + c / 64) (by omega)
    have hne4 := b64Char_ne_pad (c % 64) (by omega)
    have ih := b64_roundtrip t ht
    cases t with
    | nil =>
      simp [b64encodeList, b64decodeList, hne3, hne4, h1, h2, h3, h4]
      omega
    | cons u us =>
      simp only [b64encodeList]
      simp only [b64decodeList, if_neg hne3, if_neg hne4, h1, h2, h3, h4, List.cons.injEq]
      refine ⟨by omega, by omega, by omega, ih⟩

/-- Helper: mapping a function that fixes every member is the identity. -/
theorem map_self_of_mem {α : Type} {l : List α} {f : α → α} (h : ∀ x ∈ l, f x = x) :
    l.map f = l := by
  induction l with
  | nil => rfl
  | cons a t ih =>
    simp only [List.map_cons, h a (by simp), List.cons.injEq, true_and]
    exact ih fun x hx => h x (by simp [hx])

/-! ### ResultDelivery -/

/-- Mirrors the dataclass `ResultDelivery`.  The field `data_encoded` models
the private member `__data_encoded`, which `__post_init__` always initializes
to `None`. -/
structure ResultDelivery where
  original_request : TimeSeriesRequest
  data : Option (List (String × List Nat)) := some []
  is_compressed : Bool := false
  data_encoded : Option (List (String × String)) := none
deriving DecidableEq, Repr

/-- Mirrors `ResultDelivery.is_encoded`: asserts that exactly one of the two
data members is `None` and reports whether the raw member is the absent one. -/
def ResultDelivery.is_encoded (rd : ResultDelivery) : Except String Bool :=
  if rd.data.isNone = rd.data_encoded.isNone then
    Except.error "Bug in ResultDelivery: both data members were None"
  else Except.ok rd.data.isNone

/-- Mirrors `ResultDelivery.encode_data`: asserts the raw member is present,
then stores the base64-encoded dict.  Note that the source does not clear
`self.data`. -/
def ResultDelivery.encode_data (rd : ResultDelivery) : Except String ResultDelivery :=
  match rd.data with
  | none => Except.error "Data is already encoded"
  | some m => Except.ok { rd with data_encoded := some (m.map fun kv => (kv.1, b64encode kv.2)) }

/-- Mirrors `ResultDelivery.decode_data`: asserts the encoded member is
present, then stores the decoded dict.  The source does not clear
`self.__data_encoded`. -/
def ResultDelivery.decode_data (rd : ResultDelivery) : Except String ResultDelivery :=
  match rd.data_encoded with
  | none => Except.error "Data is not encoded"
  | some m => Except.ok { rd with data := some (m.map fun kv => (kv.1, b64decode kv.2)) }

/-- Mirrors `ResultDelivery.compress_data`, with the external `zlib.compress`
passed in as `zcomp`. -/
def ResultDelivery.compress_data (zcomp : List Nat → List Nat) (rd : ResultDelivery) :
    Except String ResultDelivery :=
  if rd.is_compressed then Except.error "Data is already compressed"
  else match rd.data with
    | none => Except.error "Cannot compress encoded data"
    | some m =>
      Except.ok { rd with data := some (m.map fun kv => (kv.1, zcomp kv.2)),
                          is_compressed := true }

/-- Mirrors `ResultDelivery.decompress_data`, with the external
`zlib.decompress` passed in as `zdecomp`. -/
def ResultDelivery.decompress_data (zdecomp : List Nat → List Nat) (rd : ResultDelivery) :
    Except String ResultDelivery :=
  if rd.is_compressed then
    match rd.data with
    | none => Except.error "Data has to be decoded before decompression"
    | some m =>
      Except.ok { rd with data := some (m.map fun kv => (kv.1, zdecomp kv.2)),
                          is_compressed := false }
  else Except.error "Data is not compressed"

/-! ### Claims C1 and C8: the envelope invariant and the round-trips -/

/-- C1 (code bug): on a freshly constructed raw `ResultDelivery`, `encode_data`
succeeds but leaves `data` populated alongside the new `data_encoded`, so both
representations are present; `is_encoded` then fails its own exclusivity
assertion, and a second `encode_data` call on the already-encoded delivery
silently succeeds (returning the same state) instead of failing loudly. -/
theorem claim_c1_codebug :
    (ResultDelivery.mk (TimeSeriesRequest.mk "cfg" "p" "" [] [])
        (some [("f.txt", [97, 98, 99])]) false none).encode_data =
      Except.ok (ResultDelivery.mk (TimeSeriesRequest.mk "cfg" "p" "" [] [])
        (some [("f.txt", [97, 98, 99])]) false (some [("f.txt", "YWJj")])) ∧
    (ResultDelivery.mk (TimeSeriesRequest.mk "cfg" "p" "" [] [])
        (some [("f.txt", [97, 98, 99])]) false (some [("f.txt", "YWJj")])).data ≠ none ∧
    (ResultDelivery.mk (TimeSeriesRequest.mk "cfg" "p" "" [] [])
        (some [("f.txt", [97, 98, 99])]) false (some [("f.txt", "YWJj")])).data_encoded ≠ none ∧
    (ResultDelivery.mk (TimeSeriesRequest.mk "cfg" "p" "" [] [])
        (some [("f.txt", [97, 98, 99])]) false (some [("f.txt", "YWJj")])).is_encoded =
      Except.error "Bug in ResultDelivery: both data members were None" ∧
    (ResultDelivery.mk (TimeSeriesRequest.mk "cfg" "p" "" [] [])
        (some [("f.txt", [97, 98, 99])]) false (some [("f.txt", "YWJj")])).encode_data =
      Except.ok (ResultDelivery.mk (TimeSeriesRequest.mk "cfg" "p" "" [] [])
        (some [("f.txt", [97, 98, 99])]) false (some [("f.txt", "YWJj")])) := by
  refine ⟨rfl, by simp, by simp, rfl, rfl⟩

/-- C8: on a raw, uncompressed delivery, encode followed by decode restores the
original data dict exactly, and compress followed by decompress restores the
original data dict exactly and resets `is_compressed` to `False` (assuming the
external zlib round-trip contract for the compression half). -/
theorem claim_c8_roundtrip (zcomp zdecomp : List Nat → List Nat) (rd : ResultDelivery)
    (m : List (String × List Nat))
    (hdata : rd.data = some m)
    (hcomp : rd.is_compressed = false)
    (hbytes : ∀ kv ∈ m, ∀ x ∈ kv.2, x < 256)
    (hz : ∀ kv ∈ m, zdecomp (zcomp kv.2) = kv.2) :
    (∃ rd1 rd2, rd.encode_data = Except.ok rd1 ∧ rd1.decode_data = Except.ok rd2 ∧
      rd2.data = some m) ∧
    (∃ rd3 rd4, rd.compress_data zcomp = Except.ok rd3 ∧
      rd3.decompress_data zdecomp = Except.ok rd4 ∧ rd4.data = some m ∧
      rd4.is_compressed = false) := by
  have hb64 : (m.map fun kv => (kv.1, b64encode kv.2)).map
      (fun kv => (kv.1, b64decode kv.2)) = m := by
    rw [List.map_map]
    apply map_self_of_mem
    intro kv hkv
    have hrt : b64decode (b64encode kv.2) = kv.2 := b64_roundtrip kv.2 (hbytes kv hkv)
    simp [Function.comp, hrt]
  have hzlib : (m.map fun kv => (kv.1, zcomp kv.2)).map
      (fun kv => (kv.1, zdecomp kv.2)) = m := by
    rw [List.map_map]
    apply map_self_of_mem
    intro kv hkv
    simp [Function.comp, hz kv hkv]
  constructor
  · refine ⟨{ rd with data_encoded := some (m.map fun kv => (kv.1, b64encode kv.2)) },
      { rd with data_encoded := some (m.map fun kv => (kv.1, b64encode kv.2)),
                data := some m }, ?_, ?_, rfl⟩
    · simp [ResultDelivery.encode_data, hdata]
    · simp [ResultDelivery.decode_data, hb64]
  · refine ⟨{ rd with data := some (m.map fun kv => (kv.1, zcomp kv.2)), is_compressed := true },
      { rd with data := some m, is_compressed := false }, ?_, ?_, rfl, rfl⟩
    · simp [ResultDelivery.compress_data, hcomp, hdata]
    · simp [ResultDelivery.decompress_data, hzlib]

/-- C8 witness: a concrete delivery with one file round-trips under base64 and
under a concrete invertible compressor. -/
theorem claim_c8_witness :
    (∃ rd1 rd2,
      (ResultDelivery.mk (TimeSeriesRequest.mk "cfg" "p" "" [] [])
        (some [("a.txt", [104, 105])]) false none).encode_data = Except.ok rd1 ∧
      rd1.decode_data = Except.ok rd2 ∧ rd2.data = some [("a.txt", [104, 105])]) ∧
    (∃ rd3 rd4,
      (ResultDelivery.mk (TimeSeriesRequest.mk "cfg" "p" "" [] [])
        (some [("a.txt", [104, 105])]) false none).compress_data (fun l => 0 :: l) =
        Except.ok rd3 ∧
      rd3.decompress_data List.tail = Except.ok rd4 ∧
      rd4.data = some [("a.txt", [104, 105])] ∧ rd4.is_compressed = false) :=
  claim_c8_roundtrip (fun l => 0 :: l) List.tail _ [("a.txt", [104, 105])] rfl rfl
    (by decide) (by decide)

/-! ### RestReply and the transport (`client.py`)

The wire payload attached to a reply (`result_delivery`, zlib-compressed JSON
of a `ResultDelivery`) is kept abstract as a type `α`, and the external
decompression pipeline `decompress_result_data` (zlib + `from_json`) is passed
in as a function `decomp : α → β`.  A scripted transport stub is a list of
replies, consumed one per submission. -/

/-- Mirrors the dataclass `RestReply`. -/
structure RestReply (α : Type) where
  result_delivery : Option α := none
  status : CalculationStatus := CalculationStatus.UNKNOWN
  request_hash : String := ""
  info : Option String := none
deriving DecidableEq, Repr

/-- Model of a `requests.Response`: HTTP status code plus the parsed reply
carried in the body. -/
structure Response (α : Type) where
  status_code : Nat
  json : RestReply α
deriving DecidableEq, Repr

/-- Mirrors `requests`' `Response.ok`: true below 400. -/
def Response.ok (r : Response α) : Bool := r.status_code < 400

/-- Mirrors Python's `str(response)` for a `requests.Response`. -/
def Response.str (r : Response α) : String :=
  "<Response [" ++ toString r.status_code ++ "]>"

/-- Mirrors `send_request`: raises on a non-success HTTP status, otherwise
parses the body into a `RestReply`. -/
def send_request (response : Response α) : Except String (RestReply α) :=
  if ¬ response.ok then Except.error ("Received error code: " ++ response.str)
  else Except.ok response.json

/-- Mirrors `get_result`: the delivered payload (decompressed) for INDATABASE,
`none` while the calculation is pending, an error for CALCULATIONFAILED, and
an `Unknown status` error otherwise. -/
def get_result (decomp : α → β) (reply : RestReply α) : Except String (Option β) :=
  if reply.status = CalculationStatus.INDATABASE then
    match reply.result_delivery with
    | some p => Except.ok (some (decomp p))
    | none => Except.error "TypeError: decompress() argument must be bytes, not None"
  else if reply.status = CalculationStatus.CALCULATIONSTARTED ∨
      reply.status = CalculationStatus.INCALCULATION then
    Except.ok none
  else if reply.status = CalculationStatus.CALCULATIONFAILED then
    Except.error ("Calculation failed: " ++ reply.info.getD "")
  else Except.error "Unknown status"

/-- Mirrors the polling loop of `request_time_series_and_wait_for_delivery`
against a scripted transport: starting from status UNKNOWN, each loop
iteration submits once (consuming the next scripted reply) until the latest
status is terminal, then `get_result` is applied to the last reply and the
`assert ts is not None` guard runs.  Returns the number of submissions
performed together with the outcome.  An exhausted script means the loop
would keep polling forever. -/
def request_time_series_and_wait_for_delivery (decomp : α → β) :
    List (RestReply α) → Nat × Except String β
  | [] => (0, Except.error "transport stub exhausted: the loop polls forever")
  | r :: rs =>
    if r.status = CalculationStatus.INDATABASE ∨
        r.status = CalculationStatus.CALCULATIONFAILED then
      (1, match get_result decomp r with
          | Except.error e => Except.error e
          | Except.ok none => Except.error "No time series was delivered"
          | Except.ok (some ts) => Except.ok ts)
    else
      let p := request_time_series_and_wait_for_delivery decomp rs
      (p.1 + 1, p.2)

/-! ### Claims C2, C5, C9, C10 -/

/-- C2: if the transport returns INCALCULATION for the first `k` submissions
and INDATABASE with an attached result on the next one, the polling loop
performs exactly `k + 1` submissions and returns the decompressed result
attached to the `(k+1)`-th reply (whatever the script holds beyond it). -/
theorem claim_c2_polling (decomp : α → β) (pre post : List (RestReply α))
    (dbReply : RestReply α) (p : α)
    (hpre : ∀ r ∈ pre, r.status = CalculationStatus.INCALCULATION)
    (hdb : dbReply.status = CalculationStatus.INDATABASE)
    (hp : dbReply.result_delivery = some p) :
    request_time_series_and_wait_for_delivery decomp (pre ++ dbReply :: post) =
      (pre.length + 1, Except.ok (decomp p)) := by
  induction pre with
  | nil =>
    simp only [List.nil_append, request_time_series_and_wait_for_delivery, hdb,
      List.length_nil]
    simp [get_result, hdb, hp]
  | cons r rs ih =>
    have hr : r.status = CalculationStatus.INCALCULATION := hpre r (by simp)
    have hrs : ∀ x ∈ rs, x.status = CalculationStatus.INCALCULATION := fun x hx =>
      hpre x (by simp [hx])
    simp only [List.cons_append, request_time_series_and_wait_for_delivery, hr]
    simp [ih hrs]

/-- C2 witness: a script of two INCALCULATION replies followed by a delivery
leads to exactly three submissions and the delivered payload. -/
theorem claim_c2_witness :
    request_time_series_and_wait_for_delivery (fun n : Nat => n)
      ([⟨none, CalculationStatus.INCALCULATION, "", none⟩,
        ⟨none, CalculationStatus.INCALCULATION, "", none⟩] ++
       ⟨some 7, CalculationStatus.INDATABASE, "", none⟩ ::
        [⟨some 9, CalculationStatus.INDATABASE, "", none⟩]) =
      (3, Except.ok 7) :=
  claim_c2_polling (fun n : Nat => n) _ _ _ 7 (by decide) rfl rfl

/-- C5: a CALCULATIONFAILED reply (after any run of non-terminal replies)
stops the polling loop at that submission — exactly `pre.length + 1`
submissions happen, no matter what the script holds afterwards — and the
raised error message contains the server-provided info text. -/
theorem claim_c5_failure (decomp : α → β) (pre post : List (RestReply α))
    (failReply : RestReply α) (info : String)
    (hpre : ∀ r ∈ pre, r.status ≠ CalculationStatus.INDATABASE ∧
      r.status ≠ CalculationStatus.CALCULATIONFAILED)
    (hfail : failReply.status = CalculationStatus.CALCULATIONFAILED)
    (hinfo : failReply.info = some info) :
    request_time_series_and_wait_for_delivery decomp (pre ++ failReply :: post) =
      (pre.length + 1, Except.error ("Calculation failed: " ++ info)) ∧
    ∃ s t, "Calculation failed: " ++ info = s ++ info ++ t := by
  refine ⟨?_, "Calculation failed: ", "", by simp⟩
  induction pre with
  | nil =>
    simp only [List.nil_append, request_time_series_and_wait_for_delivery, hfail,
      List.length_nil]
    have hnotdb : failReply.status ≠ CalculationStatus.INDATABASE := by
      simp [hfail]
    simp [get_result, hfail, hinfo, hnotdb]
  | cons r rs ih =>
    have hr := hpre r (by simp)
    have hrs : ∀ x ∈ rs, x.status ≠ CalculationStatus.INDATABASE ∧
        x.status ≠ CalculationStatus.CALCULATIONFAILED := fun x hx => hpre x (by simp [hx])
    simp only [List.cons_append, request_time_series_and_wait_for_delivery]
    rw [if_neg (by tauto)]
    simp [ih hrs]

/-- C5 witness: a failure reply with info `disk full` after one INCALCULATION
reply yields two submissions and an error containing `disk full`, leaving the
rest of the script unconsumed. -/
theorem claim_c5_witness :
    request_time_series_and_wait_for_delivery (fun n : Nat => n)
      ([⟨none, CalculationStatus.INCALCULATION, "", none⟩] ++
       ⟨none, CalculationStatus.CALCULATIONFAILED, "", some "disk full"⟩ ::
        [⟨some 9, CalculationStatus.INDATABASE, "", none⟩]) =
      (2, Except.error ("Calculation failed: " ++ "disk full")) ∧
    ∃ s t, "Calculation failed: " ++ "disk full" = s ++ "disk full" ++ t :=
  claim_c5_failure (fun n : Nat => n) _ _ _ "disk full" (by decide) rfl rfl

/-- C9: on a non-success HTTP response, `send_request` raises an error whose
message carries the response's rendering, and never returns a parsed reply. -/
theorem claim_c9_transport (response : Response α) (hok : response.ok = false) :
    send_request response =
      Except.error ("Received error code: " ++ response.str) ∧
    (∃ s t, "Received error code: " ++ response.str = s ++ response.str ++ t) ∧
    ∀ reply : RestReply α, send_request response ≠ Except.ok reply := by
  refine ⟨by simp [send_request, hok], ⟨"Received error code: ", "", by simp⟩, ?_⟩
  intro reply
  simp [send_request, hok]

/-- C9 witness: a concrete HTTP 500 response. -/
theorem claim_c9_witness :
    send_request (Response.mk 500 (RestReply.mk (none : Option Nat)
        CalculationStatus.UNKNOWN "" none)) =
      Except.error ("Received error code: " ++
        (Response.mk 500 (RestReply.mk (none : Option Nat)
          CalculationStatus.UNKNOWN "" none)).str) ∧
    (∃ s t, "Received error code: " ++
        (Response.mk 500 (RestReply.mk (none : Option Nat)
          CalculationStatus.UNKNOWN "" none)).str =
      s ++ (Response.mk 500 (RestReply.mk (none : Option Nat)
          CalculationStatus.UNKNOWN "" none)).str ++ t) ∧
    ∀ reply : RestReply Nat,
      send_request (Response.mk 500 (RestReply.mk (none : Option Nat)
        CalculationStatus.UNKNOWN "" none)) ≠ Except.ok reply :=
  claim_c9_transport _ (by decide)

/-- C10: `get_result` returns `none` exactly for the pending statuses
CALCULATIONSTARTED and INCALCULATION; for INDATABASE with an attached payload
it returns the decompressed result; and for UNKNOWN it does not return `none`
but raises the `Unknown status` error of the unrecognized-status branch. -/
theorem claim_c10_get_result (decomp : α → β) (reply : RestReply α) :
    (get_result decomp reply = Except.ok none ↔
      (reply.status = CalculationStatus.CALCULATIONSTARTED ∨
        reply.status = CalculationStatus.INCALCULATION)) ∧
    (∀ p, reply.status = CalculationStatus.INDATABASE →
      reply.result_delivery = some p →
      get_result decomp reply = Except.ok (some (decomp p))) ∧
    (reply.status = CalculationStatus.UNKNOWN →
      get_result decomp reply = Except.error "Unknown status") := by
  obtain ⟨rdel, rstatus, rhash, rinfo⟩ := reply
  refine ⟨?_, ?_, ?_⟩
  · cases rstatus <;> cases rdel <;> simp [get_result]
  · intro p hst hdel
    simp only at hst hdel
    subst hst
    simp [get_result, hdel]
  · intro hst
    simp only at hst
    subst hst
    simp [get_result]

/-- C10 witness: the three branches at concrete replies — pending returns
`None`, INDATABASE returns the attached payload, UNKNOWN raises. -/
theorem claim_c10_witness :
    get_result (fun n : Nat => n)
        (RestReply.mk none CalculationStatus.CALCULATIONSTARTED "" none) =
      Except.ok none ∧
    get_result (fun n : Nat => n)
        (RestReply.mk (some 7) CalculationStatus.INDATABASE "" none) =
      Except.ok (some 7) ∧
    get_result (fun n : Nat => n)
        (RestReply.mk none CalculationStatus.UNKNOWN "" none) =
      Except.error "Unknown status" :=
  ⟨(claim_c10_get_result (fun n : Nat => n) _).1.mpr (Or.inl rfl),
   (claim_c10_get_result (fun n : Nat => n) _).2.1 7 rfl rfl,
   (claim_c10_get_result (fun n : Nat => n) _).2.2 rfl⟩

/-! ### Batch coordinator (`calculate_multiple_requests`)

One scripted stub per request: `fanout` is the transport's behaviour for the
fire-and-forget submission of the fan-out phase (the returned reply is
discarded by the source; an error there propagates uncaught), and `script`
is the reply sequence served to the polling loop of the fan-in phase.
The instrumented model additionally records the observable call order:
one `submit` event per fan-out submission and one `pollWait` event each time
the blocking wait for a request begins. -/

/-- Transport stub for one request of a batch. -/
structure JobScript (α : Type) where
  fanout : Except String (RestReply α)
  script : List (RestReply α)

/-- Observable calls of the batch coordinator. -/
inductive Event where
  | submit (i : Nat)
  | pollWait (i : Nat)
deriving DecidableEq, Repr

/-- Fan-out phase: `send_request` once per request, in input order, discarding
replies; the first raised transport error aborts the whole function. -/
def fanoutPhase : List (JobScript α) → Nat → List Event × Option String
  | [], _ => ([], none)
  | j :: js, i =>
    match j.fanout with
    | Except.error e => ([Event.submit i], some e)
    | Except.ok _ =>
      let p := fanoutPhase js (i + 1)
      (Event.submit i :: p.1, p.2)

/-- Fan-in phase: the `try`/`except` collection loop over the same requests in
the same order.  A failure is re-raised when `raise_exceptions` is true, and
appended to the result list otherwise. -/
def faninPhase (decomp : α → β) (raise_exceptions : Bool) :
    List (JobScript α) → Nat → List Event × Except String (List (Except String β))
  | [], _ => ([], Except.ok [])
  | j :: js, i =>
    match (request_time_series_and_wait_for_delivery decomp j.script).2 with
    | Except.ok ts =>
      let p := faninPhase decomp raise_exceptions js (i + 1)
      (Event.pollWait i :: p.1, p.2.map fun l => Except.ok ts :: l)
    | Except.error e =>
      if raise_exceptions then ([Event.pollWait i], Except.error e)
      else
        let p := faninPhase decomp raise_exceptions js (i + 1)
        (Event.pollWait i :: p.1, p.2.map fun l => Except.error e :: l)

/-- Mirrors `calculate_multiple_requests`: the fan-out loop over all requests
followed by the fan-in collection loop, returning the recorded call trace
together with the outcome. -/
def calculate_multiple_requests (decomp : α → β) (raise_exceptions : Bool)
    (jobs : List (JobScript α)) :
    List Event × Except String (List (Except String β)) :=
  let f := fanoutPhase jobs 0
  match f.2 with
  | some e => (f.1, Except.error e)
  | none =>
    let c := faninPhase decomp raise_exceptions jobs 0
    (f.1 ++ c.1, c.2)

/-- Helper: a fan-out phase whose submissions all succeed records one submit
event per request, in input order, and no error. -/
theorem fanoutPhase_ok (js : List (JobScript α)) (i : Nat)
    (h : ∀ j ∈ js, ∃ r, j.fanout = Except.ok r) :
    fanoutPhase js i = ((List.range' i js.length).map Event.submit, none) := by
  induction js generalizing i with
  | nil => simp [fanoutPhase]
  | cons j js ih =>
    obtain ⟨r, hr⟩ := h j (by simp)
    have ihx := ih (i + 1) (fun x hx => h x (by simp [hx]))
    simp [fanoutPhase, hr, ihx, List.range'_succ]

/-- Helper: with error suppression, the fan-in phase visits every request in
order and returns the per-request outcomes positionally. -/
theorem faninPhase_suppress (decomp : α → β) (js : List (JobScript α)) (i : Nat) :
    faninPhase decomp false js i =
      ((List.range' i js.length).map Event.pollWait,
       Except.ok (js.map fun j =>
         (request_time_series_and_wait_for_delivery decomp j.script).2)) := by
  induction js generalizing i with
  | nil => simp [faninPhase]
  | cons j js ih =>
    cases hres : (request_time_series_and_wait_for_delivery decomp j.script).2 with
    | ok ts => simp [faninPhase, hres, ih (i + 1), List.range'_succ, Except.map]
    | error e => simp [faninPhase, hres, ih (i + 1), List.range'_succ, Except.map]

/-- Helper: every event of the fan-in phase is a poll-wait. -/
theorem faninPhase_events (decomp : α → β) (raise_exceptions : Bool)
    (js : List (JobScript α)) (i : Nat) :
    ∀ e ∈ (faninPhase decomp raise_exceptions js i).1, ∃ k, e = Event.pollWait k := by
  induction js generalizing i with
  | nil => simp [faninPhase]
  | cons j js ih =>
    intro e he
    cases hres : (request_time_series_and_wait_for_delivery decomp j.script).2 with
    | ok ts =>
      simp only [faninPhase, hres, List.mem_cons] at he
      rcases he with he | he
      · exact ⟨i, he⟩
      · exact ih (i + 1) e he
    | error err =>
      simp only [faninPhase, hres] at he
      by_cases hrx : raise_exceptions = true
      · rw [if_pos hrx] at he
        simp at he
        exact ⟨i, he⟩
      · rw [if_neg hrx] at he
        simp at he
        rcases he with he | he
        · exact ⟨i, he⟩
        · exact ih (i + 1) e he

/-- Helper: without suppression, the fan-in phase stops at the first failing
request and re-raises its error; requests after it are never collected. -/
theorem faninPhase_abort (decomp : α → β) (good : List (JobScript α))
    (bad : JobScript α) (rest : List (JobScript α)) (e : String) (i : Nat)
    (hgood : ∀ j ∈ good, ∃ ts,
      (request_time_series_and_wait_for_delivery decomp j.script).2 = Except.ok ts)
    (hbad : (request_time_series_and_wait_for_delivery decomp bad.script).2 =
      Except.error e) :
    faninPhase decomp true (good ++ bad :: rest) i =
      ((List.range' i (good.length + 1)).map Event.pollWait, Except.error e) := by
  induction good generalizing i with
  | nil =>
    simp [faninPhase, hbad, List.range'_succ]
  | cons j js ih =>
    obtain ⟨ts, hts⟩ := hgood j (by simp)
    have ihx := ih (i + 1) (fun x hx => hgood x (by simp [hx]))
    simp [faninPhase, hts, ihx, List.range'_succ, Except.map]

/-! ### Claims C4, C6, C7 -/

/-- C4: with error suppression enabled (`raise_exceptions := false`), the batch
returns exactly one entry per input request, positionally aligned: entry `i`
is the outcome (result or captured error) of polling request `i`, in input
order. -/
theorem claim_c4_suppression (decomp : α → β) (jobs : List (JobScript α))
    (hfan : ∀ j ∈ jobs, ∃ r, j.fanout = Except.ok r) :
    calculate_multiple_requests decomp false jobs =
      ((List.range jobs.length).map Event.submit ++
        (List.range jobs.length).map Event.pollWait,
       Except.ok (jobs.map fun j =>
         (request_time_series_and_wait_for_delivery decomp j.script).2)) ∧
    (jobs.map fun j =>
      (request_time_series_and_wait_for_delivery decomp j.script).2).length =
        jobs.length := by
  refine ⟨?_, by simp⟩
  simp [calculate_multiple_requests, fanoutPhase_ok jobs 0 hfan,
    faninPhase_suppress, List.range_eq_range']

/-- Sample fan-out reply used by the concrete batch stubs. -/
def okFanoutReply : RestReply Nat :=
  { result_delivery := none, status := CalculationStatus.INCALCULATION,
    request_hash := "", info := none }

/-- A request whose polling script immediately delivers payload `n`. -/
def dbJob (n : Nat) : JobScript Nat :=
  { fanout := Except.ok okFanoutReply,
    script := [{ result_delivery := some n, status := CalculationStatus.INDATABASE,
                 request_hash := "", info := none }] }

/-- A request whose polling script immediately fails with info `boom`. -/
def failJob : JobScript Nat :=
  { fanout := Except.ok okFanoutReply,
    script := [{ result_delivery := none, status := CalculationStatus.CALCULATIONFAILED,
                 request_hash := "", info := some "boom" }] }

/-- C4 witness: three requests where the middle one fails; suppression keeps
three positional entries, with the captured error at position 1. -/
theorem claim_c4_witness :
    (calculate_multiple_requests (fun n : Nat => n) false [dbJob 5, failJob, dbJob 6] =
      ((List.range ([dbJob 5, failJob, dbJob 6] : List (JobScript Nat)).length).map
          Event.submit ++
        (List.range ([dbJob 5, failJob, dbJob 6] : List (JobScript Nat)).length).map
          Event.pollWait,
       Except.ok ([dbJob 5, failJob, dbJob 6].map fun j =>
         (request_time_series_and_wait_for_delivery (fun n : Nat => n) j.script).2)) ∧
      ([dbJob 5, failJob, dbJob 6].map fun j =>
        (request_time_series_and_wait_for_delivery (fun n : Nat => n) j.script).2).length =
          ([dbJob 5, failJob, dbJob 6] : List (JobScript Nat)).length) ∧
    ([dbJob 5, failJob, dbJob 6].map fun j =>
      (request_time_series_and_wait_for_delivery (fun n : Nat => n) j.script).2) =
      [Except.ok 5, Except.error ("Calculation failed: " ++ "boom"), Except.ok 6] :=
  ⟨claim_c4_suppression (fun n : Nat => n) [dbJob 5, failJob, dbJob 6]
      (by intro j hj; fin_cases hj <;> exact ⟨okFanoutReply, rfl⟩),
   rfl⟩

/-- C6: for a batch of at least two requests whose fan-out submissions all
succeed, the recorded trace is all `submit` events (one per request, in input
order) strictly before any fan-in event, and every later event is a poll-wait
— in either error-handling mode. -/
theorem claim_c6_fanout_first (decomp : α → β) (raise_exceptions : Bool)
    (jobs : List (JobScript α)) (hlen : 2 ≤ jobs.length)
    (hfan : ∀ j ∈ jobs, ∃ r, j.fanout = Except.ok r) :
    ∃ tail, (calculate_multiple_requests decomp raise_exceptions jobs).1 =
        (List.range jobs.length).map Event.submit ++ tail ∧
      ∀ e ∈ tail, ∃ k, e = Event.pollWait k := by
  refine ⟨(faninPhase decomp raise_exceptions jobs 0).1, ?_,
    faninPhase_events decomp raise_exceptions jobs 0⟩
  simp [calculate_multiple_requests, fanoutPhase_ok jobs 0 hfan, List.range_eq_range']

/-- C6 witness: the three concrete requests, with exceptions enabled. -/
theorem claim_c6_witness :
    ∃ tail, (calculate_multiple_requests (fun n : Nat => n) true
        [dbJob 5, failJob, dbJob 6]).1 =
      (List.range ([dbJob 5, failJob, dbJob 6] : List (JobScript Nat)).length).map
        Event.submit ++ tail ∧
      ∀ e ∈ tail, ∃ k, e = Event.pollWait k :=
  claim_c6_fanout_first (fun n : Nat => n) true [dbJob 5, failJob, dbJob 6]
    (by decide)
    (by intro j hj; fin_cases hj <;> exact ⟨okFanoutReply, rfl⟩)

/-- C7: with suppression disabled, the first failing request of the fan-in
phase aborts the whole batch with that request's error; the trace shows every
submission but poll-waits only up to and including the failing request —
requests after it are never collected. -/
theorem claim_c7_abort (decomp : α → β) (good : List (JobScript α))
    (bad : JobScript α) (rest : List (JobScript α)) (e : String)
    (hfan : ∀ j ∈ good ++ bad :: rest, ∃ r, j.fanout = Except.ok r)
    (hgood : ∀ j ∈ good, ∃ ts,
      (request_time_series_and_wait_for_delivery decomp j.script).2 = Except.ok ts)
    (hbad : (request_time_series_and_wait_for_delivery decomp bad.script).2 =
      Except.error e) :
    calculate_multiple_requests decomp true (good ++ bad :: rest) =
      ((List.range (good ++ bad :: rest).length).map Event.submit ++
        (List.range (good.length + 1)).map Event.pollWait,
       Except.error e) := by
  simp [calculate_multiple_requests, fanoutPhase_ok _ 0 hfan,
    faninPhase_abort decomp good bad rest e 0 hgood hbad, List.range_eq_range']

/-- C7 witness: three concrete requests with the failure at position 1; the
batch raises the failure's error and records no poll-wait for position 2. -/
theorem claim_c7_witness :
    calculate_multiple_requests (fun n : Nat => n) true ([dbJob 5] ++ failJob :: [dbJob 6]) =
      ((List.range (([dbJob 5] ++ failJob :: [dbJob 6]) : List (JobScript Nat)).length).map
          Event.submit ++
        (List.range (([dbJob 5] : List (JobScript Nat)).length + 1)).map Event.pollWait,
       Except.error ("Calculation failed: " ++ "boom")) :=
  claim_c7_abort (fun n : Nat => n) [dbJob 5] failJob [dbJob 6]
    ("Calculation failed: " ++ "boom")
    (by intro j hj; fin_cases hj <;> exact ⟨okFanoutReply, rfl⟩)
    (by intro j hj; fin_cases hj; exact ⟨5, rfl⟩)
    rfl
